import Mathlib

/-!
Shallow embedding of the `nx-gov-main` governance canister
(`src/rs/nx-gov-main/src/{main,proposal,types,execution,memory}.rs`).

Modelling conventions:
* machine integers `u64`/`u8` are `Nat`; `i128` voting power is `Int`
  (tallies stay far below the overflow boundary; wrap-around is not
  modelled); the `i as u8` step index is `i % 256`;
* `Principal` is an opaque `Nat` identifier; raw byte strings are
  `List Nat`;
* Rust `Option<u64>` comparisons use the derived `Ord` where
  `None < Some _`; `optLt`/`optLe` mirror it;
* overflow-free `f64` percentage arithmetic
  (`(votes as f64 / total as f64 * 40000.0) as u16`) is modelled as
  exact rational arithmetic followed by Rust's saturating float-to-int
  cast (truncation toward zero, negative and NaN to 0, +infinity to
  65535); `f64` rounding error and `i128`-to-`f64` precision loss are
  not modelled;
* a Rust panic (a failed `assert!`, a `.unwrap()` on `None`, or
  `ic_cdk::trap`) is the `trap` outcome carrying a tag that names the
  panic site; on the Internet Computer a trap rolls the canister state
  back, so a `trap` outcome carries no store;
* the config stable cell is modelled as always populated (it is
  initialized at install), so `get_config` cannot fail;
* remote call results (pre-validate, payload, post-validate) are inputs
  of the embedding (`MsgEnv`), decoded as the well-typed boolean or
  byte responses the code expects.
-/

deriving instance DecidableEq for Except

namespace NxGov

/-- nano seconds since UNIX Epoch (`type TimeNs = u64`). -/
abbrev TimeNs := Nat

/-- Embeds `type Index = u64`. -/
abbrev Index := Nat

/-- Embeds `type VotingPower = i128`. -/
abbrev VotingPower := Int

/-- Embeds `type RawBytes = Vec<u8>`. -/
abbrev RawBytes := List Nat

/-- Opaque principal identity. -/
abbrev Principal := Nat

/-- Rust `Option<u64>` strict order (`None < Some _`, `Some a < Some b ↔ a < b`). -/
def optLt : Option Nat → Option Nat → Bool
  | none, none => false
  | none, some _ => true
  | some _, none => false
  | some a, some b => decide (a < b)

/-- Rust `Option<u64>` non-strict order. -/
def optLe : Option Nat → Option Nat → Bool
  | none, _ => true
  | some _, none => false
  | some a, some b => decide (a ≤ b)

/-- Embeds `enum ReturnError` (types.rs). -/
inductive ReturnError where
  | GenericError
  | InputError
  | Unauthorized
  | Expired
  | InterCanisterCallError
  | MemoryError
  | ArithmeticError
  | InvalidIndex
  | AlreadyExists
  | IncorrectProposalState
  | StateTransitionError
  | DependentProposalNotSucceeded
  | DependentProposalNotReady
  | PreValidateFailed
  | PostValidateFailed
  | ExecutionFailed
  deriving DecidableEq, Repr

/-- Embeds `enum ProposalError` (proposal.rs). -/
inductive ProposalError where
  | GenericError
  | StateTransitionError
  | ArithmeticError
  deriving DecidableEq, Repr

/-- Embeds `enum ExecutionStepError` (proposal.rs). -/
inductive ExecutionStepError where
  | GenericError
  | StateTransitionError
  | ArithmeticError
  deriving DecidableEq, Repr

/-- Embeds `enum Schedule` (types.rs): absolute `At(t)` or relative `In(Δ)`. -/
inductive Schedule where
  | At : TimeNs → Schedule
  | In : TimeNs → Schedule
  deriving DecidableEq, Repr

/-- Embeds `Schedule::convert_to_absolute` (types.rs): `In(Δ)` becomes `At(now+Δ)`. -/
def Schedule.convert_to_absolute (s : Schedule) (now : TimeNs) : Schedule :=
  match s with
  | .At t => .At t
  | .In d => .At (now + d)

/-- Embeds `Schedule::is_absolute` (types.rs). -/
def Schedule.is_absolute : Schedule → Bool
  | .At _ => true
  | .In _ => false

/-- Embeds `Schedule::is_in_future` (types.rs). -/
def Schedule.is_in_future (s : Schedule) (now : TimeNs) : Bool :=
  match s with
  | .At t => decide (now < t)
  | .In _ => true

/-- Embeds `Schedule::to_timestamp` (types.rs). -/
def Schedule.to_timestamp : Schedule → Option TimeNs
  | .At t => some t
  | .In _ => none

/-- Model of `(num as f64 / den as f64 * 40_000.0) as u16`: exact rational
value truncated and saturated per Rust float-to-int cast semantics
(negative and NaN to 0, +infinity to 65535).  For a positive finite value
truncation toward zero equals the floor `(num * 40000).fdiv den`. -/
def pctOfRatio (num den : Int) : Nat :=
  if den = 0 then (if 0 < num then 65535 else 0)
  else
    let v : Int := Int.fdiv (num * 40000) den
    if v ≤ 0 then 0 else min v.toNat 65535

/-- Embeds `Percentage<u16>` fixed-point value; `40_000 = 100%` (types.rs). -/
abbrev Percentage := Nat

/-- Embeds `Percentage::<u16>::is_valid` (types.rs): `value ≤ 40_000`. -/
def percentageIsValid (x : Percentage) : Bool := decide (x ≤ 40000)

/-- Embeds `struct ProposalPassingThreshold` (types.rs). -/
structure ProposalPassingThreshold where
  quorum : Percentage
  passing_threshold : Percentage
  deriving DecidableEq, Repr

/-- Embeds `ProposalPassingThreshold::is_valid` (types.rs). -/
def ProposalPassingThreshold.is_valid (t : ProposalPassingThreshold) : Bool :=
  percentageIsValid t.quorum && percentageIsValid t.passing_threshold

/-- Embeds `ProposalPassingThreshold::all_fields_gte` (types.rs). -/
def ProposalPassingThreshold.all_fields_gte
    (t other : ProposalPassingThreshold) : Bool :=
  decide (other.quorum ≤ t.quorum) &&
    decide (other.passing_threshold ≤ t.passing_threshold)

/-- Embeds `ProposalPassingThreshold::default()`: 20% quorum and passing rate. -/
def defaultPassingThreshold : ProposalPassingThreshold :=
  { quorum := 20 * 400, passing_threshold := 20 * 400 }

/-- Embeds `struct ProposalMetadata` (proposal.rs). -/
structure ProposalMetadata where
  name : String
  description : String
  memo : RawBytes
  deriving DecidableEq, Repr

/-- Embeds `ProposalMetadata::is_valid` (proposal.rs): name and description non-empty. -/
def ProposalMetadata.is_valid (m : ProposalMetadata) : Bool :=
  !m.name.isEmpty && !m.description.isEmpty

/-- Embeds `struct PreValidateTarget` (execution.rs). -/
structure PreValidateTarget where
  canister_id : Principal
  method : String
  payload : RawBytes
  payment : Nat
  deriving DecidableEq, Repr

/-- Embeds `struct PostValidateTarget` (execution.rs). -/
structure PostValidateTarget where
  canister_id : Principal
  method : String
  payment : Nat
  deriving DecidableEq, Repr

/-- Embeds `struct CanisterMessage` (execution.rs). -/
structure CanisterMessage where
  canister_id : Principal
  method : String
  message : RawBytes
  payment : Nat
  pre_validate : Option PreValidateTarget
  post_validate : Option PostValidateTarget
  deriving DecidableEq, Repr

/-- Embeds `struct ProposalPayload` (execution.rs). -/
structure ProposalPayload where
  depends_on : List Index
  messages : List CanisterMessage
  deriving DecidableEq, Repr

/-- Embeds `ProposalPayload::is_valid` (execution.rs): every method non-empty. -/
def ProposalPayload.is_valid (p : ProposalPayload) : Bool :=
  p.messages.all (fun m => !m.method.isEmpty)

/-- Embeds `ProposalPayload::max_dependency_index` (execution.rs). -/
def ProposalPayload.max_dependency_index (p : ProposalPayload) : Option Index :=
  p.depends_on.max?

/-- Embeds `struct ExecResult` (execution.rs): raw response bytes or `(code, msg)`. -/
structure ExecResult where
  result : Except (Int × String) RawBytes
  deriving DecidableEq, Repr

/-- Embeds `enum ExecutionStepState` (proposal.rs). -/
inductive ExecutionStepState where
  | NotStarted
  | PreValidating
  | PreValidateCallError
  | PreValidateFailed
  | Executing
  | ExecutionCallError
  | PostValidating
  | PostValidateCallError
  | PostValidateFailed
  | Succeeded
  deriving DecidableEq, Repr

/-- Embeds `struct ExecutionStep` (proposal.rs); the step index `u8` is a `Nat`. -/
structure ExecutionStep where
  step : Nat
  state : ExecutionStepState
  deriving DecidableEq, Repr

/-- Embeds `ExecutionStep::new` (proposal.rs). -/
def ExecutionStep.new (step : Nat) : ExecutionStep :=
  { step := step, state := .NotStarted }

/-- The transition table of `ExecutionStep::state_transition` (proposal.rs). -/
def allowedStepTransition : ExecutionStepState → ExecutionStepState → Bool
  | .NotStarted, .PreValidating => true
  | .PreValidating, .PreValidateCallError => true
  | .PreValidating, .PreValidateFailed => true
  | .PreValidating, .Executing => true
  | .Executing, .ExecutionCallError => true
  | .Executing, .PostValidating => true
  | .PostValidating, .PostValidateCallError => true
  | .PostValidating, .PostValidateFailed => true
  | .PostValidating, .Succeeded => true
  | _, _ => false

/-- Embeds `ExecutionStep::state_transition` (proposal.rs): returns the previous
sub-state and the updated step on success. -/
def ExecutionStep.state_transition (s : ExecutionStep)
    (next : ExecutionStepState) :
    Except ExecutionStepError (ExecutionStepState × ExecutionStep) :=
  if allowedStepTransition s.state next then
    .ok (s.state, { s with state := next })
  else
    .error .StateTransitionError

/-- Embeds `enum ProposalState` (proposal.rs). -/
inductive ProposalState where
  | Submitted
  | ValidationFailed
  | Open
  | Accepted
  | Executing : ExecutionStep → ProposalState
  | Succeeded
  | Failed : ExecutionStep → ProposalState
  | Expired
  | Rejected
  | Revoked
  | QuorumNotMet
  | ForceExecuting : ExecutionStep → ProposalState
  | ForceExecutionSucceeded
  | ForceExecutionFailed : ExecutionStep → ProposalState
  deriving DecidableEq, Repr

/-- The transition table of `Proposal::state_transition` (proposal.rs). -/
def allowedTransition : ProposalState → ProposalState → Bool
  | .Submitted, .Open => true
  | .Submitted, .ValidationFailed => true
  | .Open, .Accepted => true
  | .Open, .Rejected => true
  | .Open, .Revoked => true
  | .Open, .QuorumNotMet => true
  | .Open, .ForceExecuting _ => true
  | .Accepted, .Executing _ => true
  | .Executing _, .Executing _ => true
  | .Executing _, .Succeeded => true
  | .Executing _, .Failed _ => true
  | .Executing _, .Expired => true
  | .ForceExecuting _, .ForceExecuting _ => true
  | .ForceExecuting _, .ForceExecutionSucceeded => true
  | .ForceExecuting _, .ForceExecutionFailed _ => true
  | _, _ => false

/-- Embeds `struct Proposal` (proposal.rs). -/
structure Proposal where
  metadata_id : Index
  payload_id : Index
  auto_execute : Bool
  activates : Schedule
  expires : Schedule
  created_at : TimeNs
  proposer : Principal
  validated : Option Bool
  voting_end_time : Option TimeNs
  passing_threshold : Option ProposalPassingThreshold
  state : ProposalState
  votes_yes : VotingPower
  votes_no : VotingPower
  votes_abstain : VotingPower
  total_voting_power : VotingPower
  deriving DecidableEq, Repr

/-- Embeds `Proposal::from_submit` (proposal.rs). -/
def Proposal.from_submit (metadata_id payload_id : Index) (auto_execute : Bool)
    (activates expires : Schedule) (now : TimeNs) (proposer : Principal) :
    Proposal :=
  { metadata_id := metadata_id
    payload_id := payload_id
    auto_execute := auto_execute
    activates := activates
    expires := expires
    created_at := now
    proposer := proposer
    validated := none
    voting_end_time := none
    passing_threshold := none
    state := .Submitted
    votes_yes := 0
    votes_no := 0
    votes_abstain := 0
    total_voting_power := 0 }

/-- Embeds `Proposal::is_voteable` (proposal.rs):
`state == Open && voting_end_time > Some(now)`. -/
def Proposal.is_voteable (p : Proposal) (now : TimeNs) : Bool :=
  decide (p.state = .Open) &&
    (match p.voting_end_time with
     | some t => decide (now < t)
     | none => false)

/-- Embeds `Proposal::is_expired` (proposal.rs): `Some(now) > voting_end_time`. -/
def Proposal.is_expired (p : Proposal) (now : TimeNs) : Bool :=
  match p.voting_end_time with
  | some t => decide (t < now)
  | none => true

/-- Embeds `Proposal::is_executable` (proposal.rs). -/
def Proposal.is_executable (p : Proposal) (now : TimeNs) : Bool :=
  decide (p.state = .Accepted) && p.activates.is_absolute &&
    optLe p.activates.to_timestamp (some now) &&
    optLt (some now) p.expires.to_timestamp

/-- Embeds `Proposal::is_force_executable` (proposal.rs). -/
def Proposal.is_force_executable (p : Proposal) (now : TimeNs) : Bool :=
  decide (p.state = .Open) && p.activates.is_absolute &&
    optLe p.activates.to_timestamp (some now) &&
    optLt (some now) p.expires.to_timestamp

/-- Embeds `Proposal::finalize_activation` (proposal.rs). -/
def Proposal.finalize_activation (p : Proposal) (now : TimeNs) : Proposal :=
  { p with activates := p.activates.convert_to_absolute now }

/-- Embeds `Proposal::finalize_expiration` (proposal.rs). -/
def Proposal.finalize_expiration (p : Proposal) (now : TimeNs) : Proposal :=
  { p with expires := p.expires.convert_to_absolute now }

/-- Embeds `Proposal::state_transition` (proposal.rs): returns the previous state
and the updated proposal on success. -/
def Proposal.state_transition (p : Proposal) (next : ProposalState) :
    Except ProposalError (ProposalState × Proposal) :=
  if allowedTransition p.state next then
    .ok (p.state, { p with state := next })
  else
    .error .StateTransitionError

/-- Embeds `Proposal::execution_state_transition` (proposal.rs). -/
def Proposal.execution_state_transition (p : Proposal)
    (next : ExecutionStepState) :
    Except ProposalError (ProposalState × Proposal) :=
  match p.state with
  | .Executing s =>
    match s.state_transition next with
    | .ok (_, s') => .ok (p.state, { p with state := .Executing s' })
    | .error _ => .error .StateTransitionError
  | .ForceExecuting s =>
    match s.state_transition next with
    | .ok (_, s') => .ok (p.state, { p with state := .ForceExecuting s' })
    | .error _ => .error .StateTransitionError
  | _ => .error .StateTransitionError

/-- Embeds `Proposal::current_participation_rate` (proposal.rs):
`(yes+no+abstain) as f64 / total as f64`, as a `Percentage<u16>`. -/
def Proposal.current_participation_rate (p : Proposal) : Percentage :=
  pctOfRatio (p.votes_yes + p.votes_no + p.votes_abstain) p.total_voting_power

/-- Embeds `Proposal::current_yes_rate` (proposal.rs): `yes / (yes+no)`. -/
def Proposal.current_yes_rate (p : Proposal) : Percentage :=
  pctOfRatio p.votes_yes (p.votes_yes + p.votes_no)

/-- Embeds `Proposal::absolute_majority_reached` (proposal.rs):
`votes_yes * 2 > total_voting_power`. -/
def Proposal.absolute_majority_reached (p : Proposal) : Bool :=
  decide (p.total_voting_power < p.votes_yes * 2)

/-- Result of a computation that may hit a Rust panic; the tag names the
panic site. -/
inductive TrapExcept (ε α : Type) where
  | trap : String → TrapExcept ε α
  | error : ε → TrapExcept ε α
  | ok : α → TrapExcept ε α
  deriving DecidableEq, Repr

/-- Embeds `Proposal::try_finalize_vote_result` (proposal.rs): the
`passing_threshold.clone().unwrap()` calls trap when the field is unset. -/
def Proposal.try_finalize_vote_result (p : Proposal) (now : TimeNs) :
    TrapExcept ProposalError (Bool × Proposal) :=
  match p.is_expired now with
  | false =>
    match p.passing_threshold with
    | none => .trap "passing_threshold"
    | some th =>
      if th.quorum ≤ p.current_participation_rate ∧
          p.absolute_majority_reached then
        match p.state_transition .Accepted with
        | .error e => .error e
        | .ok (_, p1) =>
          .ok (true, (p1.finalize_activation now).finalize_expiration now)
      else
        .ok (false, p)
  | true =>
    match p.passing_threshold with
    | none => .trap "passing_threshold"
    | some th =>
      let next : ProposalState :=
        if p.current_participation_rate < th.quorum then .QuorumNotMet
        else if p.current_yes_rate < th.passing_threshold then .Rejected
        else .Accepted
      match p.state_transition next with
      | .error e => .error e
      | .ok (_, p1) =>
        .ok (true, (p1.finalize_activation now).finalize_expiration now)

/-- Embeds `struct Config` (types.rs). -/
structure Config where
  name : String
  description : String
  inited : Bool
  min_voting_period : TimeNs
  min_passing_threshold : ProposalPassingThreshold
  voting_may_end_early : Bool
  validator_hook : Option Principal
  vote_manager_hook : Option Principal
  deriving DecidableEq, Repr

/-- The canister's stable storage (memory.rs): config cell, proposals
vector, metadata/payload append-only logs, execution-result map (as an
association list) and the LIFO timer-task stack.  The revoke log is
omitted: no modelled operation reads or writes it. -/
structure GovStore where
  config : Config
  proposals : List Proposal
  metadataLog : List ProposalMetadata
  payloadLog : List ProposalPayload
  execResults : List (Index × List ExecResult)
  timerTasks : List Index
  deriving DecidableEq, Repr

/-- Embeds `set_proposal_by_id` (memory.rs). -/
def GovStore.setProposal (st : GovStore) (id : Index) (p : Proposal) :
    GovStore :=
  { st with proposals := st.proposals.set id p }

/-- Embeds `add_execution_step_result` (memory.rs): append a step result to the
proposal's (possibly missing, then defaulted) result list. -/
def GovStore.addExecutionStepResult (st : GovStore) (id : Index)
    (r : ExecResult) : GovStore :=
  let old := (st.execResults.lookup id).getD []
  { st with
    execResults := (id, old ++ [r]) ::
      st.execResults.filter (fun kv => kv.1 ≠ id) }

/-- Embeds `push_timer_task` (memory.rs). -/
def GovStore.pushTimerTask (st : GovStore) (id : Index) : GovStore :=
  { st with timerTasks := st.timerTasks ++ [id] }

/-- Outcome of a public update call: a trap (canister state rolled back,
so no store is carried) or a `Result` value together with the store after
the call. -/
inductive OpResult (α : Type) where
  | trap : String → OpResult α
  | res : Except ReturnError α → GovStore → OpResult α
  deriving DecidableEq, Repr

/-- Embeds `submit` (main.rs).  `hasRole` is the result of the Proposer role
check; `require_caller_has_role` traps when it is false, and the two
`assert!` calls trap on invalid input. -/
def submitOp (st : GovStore) (now : TimeNs) (hasRole : Bool)
    (caller : Principal) (metadata : ProposalMetadata)
    (payload : ProposalPayload) (activates expires : Schedule)
    (auto_execute : Bool) : OpResult Index :=
  if !hasRole then .trap "Caller does not have role"
  else if !(metadata.is_valid && payload.is_valid &&
      expires.is_in_future now) then .trap "assertion failed"
  else
    let metadata_id := st.metadataLog.length
    let st1 := { st with metadataLog := st.metadataLog ++ [metadata] }
    let payload_id := st1.payloadLog.length
    let st2 := { st1 with payloadLog := st1.payloadLog ++ [payload] }
    let proposal := Proposal.from_submit metadata_id payload_id auto_execute
      activates expires now caller
    let proposal_id := st2.proposals.length
    let st3 := { st2 with proposals := st2.proposals ++ [proposal] }
    if !optLt payload.max_dependency_index (some proposal_id) then
      .trap "assertion failed"
    else if st3.config.validator_hook.isSome then
      .res (.ok proposal_id) (st3.pushTimerTask proposal_id)
    else
      .res (.ok proposal_id) st3

/-- The `passing_threshold.is_some_and(|x| x.is_valid() && x.all_fields_gte(..))`
input check of `validate` (main.rs). -/
def thOkCheck (st : GovStore) :
    Option ProposalPassingThreshold → Bool
  | some x => x.is_valid && x.all_fields_gte st.config.min_passing_threshold
  | none => false

/-- The `voting_end_time.is_some_and(|x| x > time() + min_voting_period)`
input check of `validate` (main.rs); note the strict inequality. -/
def vetOkCheck (st : GovStore) (now : TimeNs) : Option TimeNs → Bool
  | some x => decide (now + st.config.min_voting_period < x)
  | none => false

/-- Embeds `validate` (main.rs). -/
def validateOp (st : GovStore) (now : TimeNs) (hasRole : Bool) (id : Index)
    (voting_end_time : Option TimeNs)
    (passing_threshold : Option ProposalPassingThreshold)
    (validated : Bool) : OpResult Unit :=
  if !hasRole then .trap "Caller does not have role"
  else if validated && (!(thOkCheck st passing_threshold) ||
      !(vetOkCheck st now voting_end_time)) then
    .res (.error .InputError) st
  else
    match st.proposals.get? id with
    | none => .res (.error .InvalidIndex) st
    | some p =>
      if p.state ≠ ProposalState.Submitted then
        .res (.error .IncorrectProposalState) st
      else
        match p.state_transition
            (if validated then .Open else .ValidationFailed) with
        | .error _ => .res (.error .StateTransitionError) st
        | .ok (_, p1) =>
          if st.config.vote_manager_hook.isSome then
            .res (.ok ())
              ((st.setProposal id
                { p1 with
                  validated := some validated
                  voting_end_time := voting_end_time
                  passing_threshold := passing_threshold }).pushTimerTask id)
          else
            .res (.ok ())
              (st.setProposal id
                { p1 with
                  validated := some validated
                  voting_end_time := voting_end_time
                  passing_threshold := passing_threshold })

/-- The shared tail of the vote-update family (main.rs): run
`try_finalize_vote_result` when `voting_may_end_early` or past the voting
end (the `voting_end_time.unwrap()` traps when the field is unset and the
early flag is not set), then persist. -/
def runFinalizeStore (st : GovStore) (now : TimeNs) (id : Index)
    (q : Proposal) : OpResult Unit :=
  match q.try_finalize_vote_result now with
  | .trap m => .trap m
  | .error _ => .res (.error .StateTransitionError) st
  | .ok (_, q') => .res (.ok ()) (st.setProposal id q')

def finalizeAndStore (st : GovStore) (now : TimeNs) (id : Index)
    (p : Proposal) : OpResult Unit :=
  if st.config.voting_may_end_early then runFinalizeStore st now id p
  else
    match p.voting_end_time with
    | none => .trap "voting_end_time"
    | some vet =>
      if vet < now then runFinalizeStore st now id p
      else .res (.ok ()) (st.setProposal id p)

/-- The tail of `update_vote_result` (main.rs) after the in-place
increments, on the already-incremented proposal `p`: the negativity and
sum checks (note `≥` against the total), then finalize and store. -/
def updVoteGuard (st : GovStore) (now : TimeNs) (id : Index)
    (p : Proposal) : OpResult Unit :=
  if p.votes_yes < 0 ∨ p.votes_no < 0 ∨ p.votes_abstain < 0 ∨
      p.total_voting_power ≤ p.votes_yes + p.votes_no + p.votes_abstain then
    .res (.error .ArithmeticError) st
  else finalizeAndStore st now id p

/-- Embeds `update_vote_result` (main.rs). -/
def updateVoteResult (st : GovStore) (now : TimeNs) (hasRole : Bool)
    (id : Index) (dy dn da : VotingPower) : OpResult Unit :=
  if !hasRole then .trap "Caller does not have role"
  else
    match st.proposals.get? id with
    | none => .res (.error .InvalidIndex) st
    | some p =>
      if !p.is_voteable now then .res (.error .Expired) st
      else
        updVoteGuard st now id
          { p with
            votes_yes := p.votes_yes + dy
            votes_no := p.votes_no + dn
            votes_abstain := p.votes_abstain + da }

/-- Embeds `update_total_voting_power` (main.rs). -/
def updateTotalVotingPower (st : GovStore) (now : TimeNs) (hasRole : Bool)
    (id : Index) (total : VotingPower) : OpResult Unit :=
  if !hasRole then .trap "Caller does not have role"
  else
    match st.proposals.get? id with
    | none => .res (.error .InvalidIndex) st
    | some p =>
      if !p.is_voteable now then .res (.error .Expired) st
      else if total < 0 then .res (.error .ArithmeticError) st
      else
        finalizeAndStore st now id { p with total_voting_power := total }

/-- The tail of `update_vote_result_and_total_voting_power` (main.rs)
after the in-place increments: only the negativity checks, no sum check,
then finalize and store. -/
def updVoteGuardNoSum (st : GovStore) (now : TimeNs) (id : Index)
    (p : Proposal) : OpResult Unit :=
  if p.votes_yes < 0 ∨ p.votes_no < 0 ∨ p.votes_abstain < 0 then
    .res (.error .ArithmeticError) st
  else finalizeAndStore st now id p

/-- Embeds `update_vote_result_and_total_voting_power` (main.rs): unlike
`update_vote_result` it checks only the individual tallies for
negativity, never the sum against the total. -/
def updateVoteResultAndTotalVotingPower (st : GovStore) (now : TimeNs)
    (hasRole : Bool) (id : Index) (dy dn da total : VotingPower) :
    OpResult Unit :=
  if !hasRole then .trap "Caller does not have role"
  else
    match st.proposals.get? id with
    | none => .res (.error .InvalidIndex) st
    | some p =>
      if !p.is_voteable now then .res (.error .Expired) st
      else if total < 0 then .res (.error .ArithmeticError) st
      else
        updVoteGuardNoSum st now id
          { p with
            votes_yes := p.votes_yes + dy
            votes_no := p.votes_no + dn
            votes_abstain := p.votes_abstain + da
            total_voting_power := total }

/-- Embeds `finalize_vote_result` (main.rs): no `is_voteable` or state guard. -/
def finalizeVoteResult (st : GovStore) (now : TimeNs) (hasRole : Bool)
    (id : Index) : OpResult Unit :=
  if !hasRole then .trap "Caller does not have role"
  else
    match st.proposals.get? id with
    | none => .res (.error .InvalidIndex) st
    | some p => finalizeAndStore st now id p

/-- Embeds `validate_execution_dependency` (main.rs). -/
def validateExecutionDependency (st : GovStore) :
    List Index → Except ReturnError Unit
  | [] => .ok ()
  | dep :: rest =>
    match st.proposals.get? dep with
    | none => .error .InvalidIndex
    | some dp =>
      match dp.state with
      | .Succeeded | .ForceExecutionSucceeded =>
        validateExecutionDependency st rest
      | .Failed _ | .ForceExecutionFailed _ | .ValidationFailed
      | .Expired | .Rejected | .Revoked | .QuorumNotMet =>
        .error .DependentProposalNotSucceeded
      | .Submitted | .Open | .Accepted | .Executing _
      | .ForceExecuting _ =>
        .error .DependentProposalNotReady

/-- The remote call results one `execute_message` run observes: the
pre-validate response (call error or decoded boolean), the payload call
response, and the post-validate response. -/
structure MsgEnv where
  pre : Except Unit Bool
  exec : Except (Int × String) RawBytes
  post : Except Unit Bool
  deriving DecidableEq, Repr

/-- Defaulted per-message environment lookup for the dispatch loop. -/
def envAt (env : List MsgEnv) (i : Nat) : MsgEnv :=
  (env.get? i).getD { pre := .ok true, exec := .ok [], post := .ok true }

/-- Embeds `execute_message` (main.rs): dispatch one `CanisterMessage`, driving
the proposal's execution sub-state and persisting after transitions
exactly where the source does. -/
def executeMessage (env : MsgEnv) (m : CanisterMessage) (st : GovStore)
    (id : Index) : OpResult Unit :=
  match st.proposals.get? id with
  | none => .res (.error .InvalidIndex) st
  | some p0 =>
    let afterPre : OpResult Proposal :=
      if m.pre_validate.isSome then
        match env.pre with
        | .ok true =>
          match p0.execution_state_transition .Executing with
          | .error _ => .res (.error .StateTransitionError) st
          | .ok (_, p1) => .res (.ok p1) st
        | .ok false =>
          match p0.execution_state_transition .PreValidateFailed with
          | .error _ => .res (.error .StateTransitionError) st
          | .ok (_, p1) =>
            .res (.error .PreValidateFailed) (st.setProposal id p1)
        | .error _ =>
          match p0.execution_state_transition .PreValidateCallError with
          | .error _ => .res (.error .StateTransitionError) st
          | .ok (_, p1) =>
            .res (.error .InterCanisterCallError) (st.setProposal id p1)
      else .res (.ok p0) st
    match afterPre with
    | .trap msg => .trap msg
    | .res (.error e) st' => .res (.error e) st'
    | .res (.ok p) st' =>
      let st1 := st'.addExecutionStepResult id { result := env.exec }
      match env.exec with
      | .error _ =>
        match p.execution_state_transition .ExecutionCallError with
        | .error _ => .res (.error .StateTransitionError) st1
        | .ok (_, p1) =>
          .res (.error .InterCanisterCallError) (st1.setProposal id p1)
      | .ok _ =>
        match p.execution_state_transition .PostValidating with
        | .error _ => .res (.error .StateTransitionError) st1
        | .ok (_, p2) =>
          let st2 := st1.setProposal id p2
          if m.post_validate.isSome then
            match env.post with
            | .ok true =>
              match p2.execution_state_transition .Succeeded with
              | .error _ => .res (.error .StateTransitionError) st2
              | .ok (_, p3) => .res (.ok ()) (st2.setProposal id p3)
            | .ok false =>
              match p2.execution_state_transition .PostValidateFailed with
              | .error _ => .res (.error .StateTransitionError) st2
              | .ok (_, p3) =>
                .res (.error .PostValidateFailed) (st2.setProposal id p3)
            | .error _ =>
              match p2.execution_state_transition .PostValidateCallError with
              | .error _ => .res (.error .StateTransitionError) st2
              | .ok (_, p3) =>
                .res (.error .InterCanisterCallError) (st2.setProposal id p3)
          else
            match p2.execution_state_transition .Succeeded with
            | .error _ => .res (.error .StateTransitionError) st2
            | .ok (_, p3) => .res (.ok ()) (st2.setProposal id p3)

/-- The message loop of `execute` (main.rs), with the loop index `i`, the
caller's in-memory proposal copy `p` (the source keeps this local copy
across `execute_message` calls and overwrites the stored one with it) and
the running store.  On the first failing message the state becomes
`Failed(step)`; the source then returns `Ok(())`. -/
def executeLoop (env : List MsgEnv) (st : GovStore) (now : TimeNs)
    (id : Index) (p : Proposal) (i : Nat) :
    List CanisterMessage → OpResult Unit
  | [] =>
    match p.state_transition .Succeeded with
    | .error _ => .res (.error .StateTransitionError) st
    | .ok (_, p') => .res (.ok ()) (st.setProposal id p')
  | m :: rest =>
    match p.state_transition (.Executing (ExecutionStep.new (i % 256))) with
    | .error _ => .res (.error .StateTransitionError) st
    | .ok (_, p1) =>
      let st1 := st.setProposal id p1
      match executeMessage (envAt env i) m st1 id with
      | .trap msg => .trap msg
      | .res (.ok _) st2 => executeLoop env st2 now id p1 (i + 1) rest
      | .res (.error _) st2 =>
        match p1.state with
        | .Executing s =>
          match p1.state_transition (.Failed s) with
          | .error _ => .res (.error .StateTransitionError) st2
          | .ok (_, p2) => .res (.ok ()) (st2.setProposal id p2)
        | _ => .res (.ok ()) st2

/-- The message loop of `force_execute` (main.rs). -/
def forceExecuteLoop (env : List MsgEnv) (st : GovStore) (now : TimeNs)
    (id : Index) (p : Proposal) (i : Nat) :
    List CanisterMessage → OpResult Unit
  | [] =>
    match p.state_transition .ForceExecutionSucceeded with
    | .error _ => .res (.error .StateTransitionError) st
    | .ok (_, p') => .res (.ok ()) (st.setProposal id p')
  | m :: rest =>
    match p.state_transition
        (.ForceExecuting (ExecutionStep.new (i % 256))) with
    | .error _ => .res (.error .StateTransitionError) st
    | .ok (_, p1) =>
      let st1 := st.setProposal id p1
      match executeMessage (envAt env i) m st1 id with
      | .trap msg => .trap msg
      | .res (.ok _) st2 => forceExecuteLoop env st2 now id p1 (i + 1) rest
      | .res (.error _) st2 =>
        match p1.state with
        | .ForceExecuting s =>
          match p1.state_transition (.ForceExecutionFailed s) with
          | .error _ => .res (.error .StateTransitionError) st2
          | .ok (_, p2) => .res (.ok ()) (st2.setProposal id p2)
        | _ => .res (.ok ()) st2

/-- The body of `execute` (main.rs) after the optional finalization of an
Open proposal: executability check, payload fetch, dependency validation
and the message loop. -/
def executeAfterFinalize (env : List MsgEnv) (st : GovStore) (now : TimeNs)
    (id : Index) (p : Proposal) : OpResult Unit :=
  if !p.is_executable now then
    .res (.error .IncorrectProposalState) st
  else
    match st.payloadLog.get? p.payload_id with
    | none => .res (.error .InvalidIndex) st
    | some payload =>
      match validateExecutionDependency st payload.depends_on with
      | .error e => .res (.error e) st
      | .ok _ => executeLoop env st now id p 0 payload.messages

/-- Embeds `execute` (main.rs). -/
def executeOp (env : List MsgEnv) (st : GovStore) (now : TimeNs)
    (hasRole : Bool) (id : Index) : OpResult Unit :=
  if !hasRole then .trap "Caller does not have role"
  else
    match st.proposals.get? id with
    | none => .res (.error .InvalidIndex) st
    | some p0 =>
      if p0.state = ProposalState.Open then
        match p0.try_finalize_vote_result now with
        | .trap m => .trap m
        | .error _ => .res (.error .StateTransitionError) st
        | .ok (_, p') => executeAfterFinalize env st now id p'
      else executeAfterFinalize env st now id p0

/-- Embeds `force_execute` (main.rs). -/
def forceExecuteOp (env : List MsgEnv) (st : GovStore) (now : TimeNs)
    (hasRole : Bool) (id : Index) : OpResult Unit :=
  if !hasRole then .trap "Caller does not have role"
  else
    match st.proposals.get? id with
    | none => .res (.error .InvalidIndex) st
    | some p =>
      if !p.is_force_executable now then
        .res (.error .IncorrectProposalState) st
      else
        match st.payloadLog.get? p.payload_id with
        | none => .res (.error .InvalidIndex) st
        | some payload =>
          match validateExecutionDependency st payload.depends_on with
          | .error e => .res (.error e) st
          | .ok _ => forceExecuteLoop env st now id p 0 payload.messages

/-- Success terminal states of the dependency resolver (main.rs). -/
def isSuccessTerminal : ProposalState → Bool
  | .Succeeded | .ForceExecutionSucceeded => true
  | _ => false

/-- Failure terminal states of the dependency resolver (main.rs). -/
def isFailureTerminal : ProposalState → Bool
  | .Failed _ | .ForceExecutionFailed _ | .ValidationFailed | .Expired
  | .Rejected | .Revoked | .QuorumNotMet => true
  | _ => false

/-- Non-terminal states of the dependency resolver (main.rs). -/
def isNonTerminal : ProposalState → Bool
  | .Submitted | .Open | .Accepted | .Executing _ | .ForceExecuting _ => true
  | _ => false

/-- Spec invariant (I3): nonnegative tallies whose sum is bounded by the
total voting power. -/
def I3 (p : Proposal) : Prop :=
  0 ≤ p.votes_yes ∧ 0 ≤ p.votes_no ∧ 0 ≤ p.votes_abstain ∧
    p.votes_yes + p.votes_no + p.votes_abstain ≤ p.total_voting_power

instance (p : Proposal) : Decidable (I3 p) := by
  unfold I3; infer_instance

/-- C9: `convert_to_absolute` replaces `In(Δ)` with `At(now+Δ)` and is the
identity on `At(t)`, hence idempotent at a fixed clock reading, and
`to_timestamp` yields a value exactly on absolute schedules. -/
theorem c9_schedule_algebra :
    ∀ (now : TimeNs) (s : Schedule) (d t : TimeNs),
      (Schedule.In d).convert_to_absolute now = .At (now + d) ∧
      (Schedule.At t).convert_to_absolute now = .At t ∧
      (s.convert_to_absolute now).convert_to_absolute now =
        s.convert_to_absolute now ∧
      (Schedule.At t).to_timestamp = some t ∧
      (Schedule.In d).to_timestamp = none ∧
      s.to_timestamp.isSome = s.is_absolute := by
  intro now s d t
  refine ⟨rfl, rfl, ?_, rfl, rfl, ?_⟩ <;> cases s <;> rfl

/-- C4: on an Open proposal with its voting fields set,
`try_finalize_vote_result` accepts early (freezing both schedules) exactly
when participation meets the quorum and an absolute majority of yes votes
is reached, returns `false` without any change otherwise, and after
expiry always finalizes to QuorumNotMet / Rejected / Accepted by the
participation and yes-rate comparisons, freezing both schedules. -/
theorem c4_try_finalize_cases (p : Proposal) (now : TimeNs)
    (th : ProposalPassingThreshold) (vet : TimeNs)
    (hst : p.state = .Open)
    (hth : p.passing_threshold = some th)
    (hvet : p.voting_end_time = some vet) :
    (¬ vet < now →
      ((th.quorum ≤ p.current_participation_rate ∧
          p.absolute_majority_reached = true →
        p.try_finalize_vote_result now =
          .ok (true, (({ p with state := .Accepted }).finalize_activation
            now).finalize_expiration now)) ∧
       (¬(th.quorum ≤ p.current_participation_rate ∧
          p.absolute_majority_reached = true) →
        p.try_finalize_vote_result now = .ok (false, p)))) ∧
    (vet < now →
      p.try_finalize_vote_result now =
        .ok (true, (({ p with state :=
          if p.current_participation_rate < th.quorum then .QuorumNotMet
          else if p.current_yes_rate < th.passing_threshold then .Rejected
          else .Accepted }).finalize_activation now).finalize_expiration
            now)) := by
  have hexp : p.is_expired now = decide (vet < now) := by
    simp [Proposal.is_expired, hvet]
  constructor
  · intro hnow
    have hexp' : p.is_expired now = false := by
      simp [hexp, hnow]
    constructor
    · intro hcond
      simp only [Proposal.try_finalize_vote_result, hexp', hth]
      rw [if_pos]
      · simp [Proposal.state_transition, allowedTransition, hst, hth]
      · exact ⟨hcond.1, hcond.2⟩
    · intro hcond
      simp only [Proposal.try_finalize_vote_result, hexp', hth]
      rw [if_neg]
      intro hc
      exact hcond ⟨hc.1, hc.2⟩
  · intro hnow
    have hexp' : p.is_expired now = true := by
      simp [hexp, hnow]
    simp only [Proposal.try_finalize_vote_result, hexp', hth]
    by_cases h1 : p.current_participation_rate < th.quorum
    · simp [h1, Proposal.state_transition, allowedTransition, hst, hth]
    · by_cases h2 : p.current_yes_rate < th.passing_threshold <;>
        simp [h1, h2, Proposal.state_transition, allowedTransition, hst, hth]

/-- A default-like configuration (lifecycle.rs / memory.rs defaults) with
the early-end flag cleared; fixtures tweak single fields. -/
def baseConfig : Config :=
  { name := "nx-gov"
    description := "gov"
    inited := true
    min_voting_period := 100
    min_passing_threshold := defaultPassingThreshold
    voting_may_end_early := false
    validator_hook := none
    vote_manager_hook := none }

/-- An Open, validated proposal fixture used by concrete runs. -/
def baseProposal : Proposal :=
  { metadata_id := 0
    payload_id := 0
    auto_execute := false
    activates := .At 0
    expires := .In 1000000
    created_at := 0
    proposer := 7
    validated := some true
    voting_end_time := some 1000
    passing_threshold := some defaultPassingThreshold
    state := .Open
    votes_yes := 0
    votes_no := 0
    votes_abstain := 0
    total_voting_power := 10 }

/-- A one-proposal store over the given proposal and config. -/
def mkStore (p : Proposal) (cfg : Config) : GovStore :=
  { config := cfg
    proposals := [p]
    metadataLog := []
    payloadLog := []
    execResults := []
    timerTasks := [] }

/-- Lemma: `Proposal::state_transition` succeeds exactly on the permitted table,
reporting the previous state and only changing the `state` field. -/
theorem state_transition_ok_iff (p : Proposal) (next : ProposalState)
    (r : ProposalState × Proposal) :
    p.state_transition next = .ok r ↔
      allowedTransition p.state next = true ∧
        r = (p.state, { p with state := next }) := by
  unfold Proposal.state_transition
  split
  · constructor
    · intro h
      exact ⟨by assumption, (Except.ok.inj h).symm⟩
    · intro hr
      rw [hr.2]
  · constructor
    · intro h
      exact absurd h (by simp)
    · intro hr
      exact absurd hr.1 (by assumption)

/-- The accepted/finalized arm shared by both branches of
`try_finalize_vote_result` keeps tallies and total unchanged. -/
theorem finalizeBranch_votes (p : Proposal) (now : TimeNs)
    (next : ProposalState) (b : Bool) (q : Proposal)
    (h : (match p.state_transition next with
          | .error e => TrapExcept.error e
          | .ok (_, p1) =>
            TrapExcept.ok
              (true, (p1.finalize_activation now).finalize_expiration now)) =
        TrapExcept.ok (b, q)) :
    q.votes_yes = p.votes_yes ∧ q.votes_no = p.votes_no ∧
      q.votes_abstain = p.votes_abstain ∧
      q.total_voting_power = p.total_voting_power := by
  cases hstt : p.state_transition next with
  | error e => rw [hstt] at h; exact absurd h (by simp)
  | ok r =>
    obtain ⟨s, p1⟩ := r
    rw [hstt] at h
    obtain ⟨-, hr⟩ := (state_transition_ok_iff p next (s, p1)).mp hstt
    simp only [Prod.mk.injEq] at hr
    obtain ⟨-, hp1⟩ := hr
    subst hp1
    simp only [TrapExcept.ok.injEq, Prod.mk.injEq] at h
    obtain ⟨-, hq⟩ := h
    subst hq
    simp [Proposal.finalize_activation, Proposal.finalize_expiration]

/-- Lemma: `try_finalize_vote_result` never touches the tallies or the total. -/
theorem tryFinalize_preserves_votes (p : Proposal) (now : TimeNs) (b : Bool)
    (q : Proposal) (h : p.try_finalize_vote_result now = .ok (b, q)) :
    q.votes_yes = p.votes_yes ∧ q.votes_no = p.votes_no ∧
      q.votes_abstain = p.votes_abstain ∧
      q.total_voting_power = p.total_voting_power := by
  unfold Proposal.try_finalize_vote_result at h
  split at h
  · split at h
    · exact absurd h (by simp)
    · split at h
      · exact finalizeBranch_votes p now _ b q h
      · simp only [TrapExcept.ok.injEq, Prod.mk.injEq] at h
        obtain ⟨-, hq⟩ := h
        subst hq
        exact ⟨rfl, rfl, rfl, rfl⟩
  · split at h
    · exact absurd h (by simp)
    · exact finalizeBranch_votes p now _ b q h

/-- Lemma: `runFinalizeStore` succeeds only by writing back a proposal with the
same tallies and total as its argument. -/
theorem runFinalizeStore_ok (st : GovStore) (now : TimeNs) (id : Index)
    (p : Proposal) (st' : GovStore)
    (h : runFinalizeStore st now id p = .res (.ok ()) st') :
    ∃ q, st' = st.setProposal id q ∧ q.votes_yes = p.votes_yes ∧
      q.votes_no = p.votes_no ∧ q.votes_abstain = p.votes_abstain ∧
      q.total_voting_power = p.total_voting_power := by
  unfold runFinalizeStore at h
  cases hfin : p.try_finalize_vote_result now with
  | trap m => rw [hfin] at h; exact absurd h (by simp)
  | error e => rw [hfin] at h; exact absurd h (by simp)
  | ok x =>
    obtain ⟨b, q⟩ := x
    rw [hfin] at h
    simp only [OpResult.res.injEq] at h
    exact ⟨q, h.2.symm, tryFinalize_preserves_votes p now b q hfin⟩

/-- Lemma: `runFinalizeStore` can fail only with `StateTransitionError`, leaving
the store unchanged. -/
theorem runFinalizeStore_error (st : GovStore) (now : TimeNs) (id : Index)
    (p : Proposal) (st' : GovStore) (e : ReturnError)
    (h : runFinalizeStore st now id p = .res (.error e) st') :
    e = .StateTransitionError ∧ st' = st := by
  unfold runFinalizeStore at h
  cases hfin : p.try_finalize_vote_result now with
  | trap m => rw [hfin] at h; exact absurd h (by simp)
  | error e' =>
    rw [hfin] at h
    simp only [OpResult.res.injEq, Except.error.injEq] at h
    exact ⟨h.1.symm, h.2.symm⟩
  | ok x =>
    obtain ⟨b, q⟩ := x
    rw [hfin] at h
    exact absurd h (by simp)

/-- Lemma: `finalizeAndStore` succeeds only by writing back a proposal with the
same tallies and total as its argument. -/
theorem finalizeAndStore_ok (st : GovStore) (now : TimeNs) (id : Index)
    (p : Proposal) (st' : GovStore)
    (h : finalizeAndStore st now id p = .res (.ok ()) st') :
    ∃ q, st' = st.setProposal id q ∧ q.votes_yes = p.votes_yes ∧
      q.votes_no = p.votes_no ∧ q.votes_abstain = p.votes_abstain ∧
      q.total_voting_power = p.total_voting_power := by
  unfold finalizeAndStore at h
  by_cases hc : st.config.voting_may_end_early = true
  · rw [if_pos hc] at h
    exact runFinalizeStore_ok st now id p st' h
  · rw [if_neg hc] at h
    split at h
    · exact absurd h (by simp)
    · split at h
      · exact runFinalizeStore_ok st now id p st' h
      · simp only [OpResult.res.injEq] at h
        exact ⟨p, h.2.symm, rfl, rfl, rfl, rfl⟩

/-- Lemma: `finalizeAndStore` can fail only with `StateTransitionError`, leaving
the store unchanged. -/
theorem finalizeAndStore_error (st : GovStore) (now : TimeNs) (id : Index)
    (p : Proposal) (st' : GovStore) (e : ReturnError)
    (h : finalizeAndStore st now id p = .res (.error e) st') :
    e = .StateTransitionError ∧ st' = st := by
  unfold finalizeAndStore at h
  by_cases hc : st.config.voting_may_end_early = true
  · rw [if_pos hc] at h
    exact runFinalizeStore_error st now id p st' e h
  · rw [if_neg hc] at h
    split at h
    · exact absurd h (by simp)
    · split at h
      · exact runFinalizeStore_error st now id p st' e h
      · exact absurd h (by simp)

/-- Reading back the slot just written by `set_proposal_by_id`. -/
theorem setProposal_get (st : GovStore) (id : Index) (q p : Proposal)
    (hp : st.proposals.get? id = some p) :
    (st.setProposal id q).proposals.get? id = some q := by
  obtain ⟨hlt, -⟩ := List.get?_eq_some.mp hp
  exact List.get?_set_eq_of_lt q hlt

/-- Bridge between the two list-lookup spellings used by `simp`. -/
theorem lookupElem {α : Type} (l : List α) (n : Nat) (a : α)
    (h : l.get? n = some a) : l[n]? = some a := by
  rw [← List.get?_eq_getElem?]
  exact h

/-- Bridge between the two list-lookup spellings, missing-index case. -/
theorem lookupElemNone {α : Type} (l : List α) (n : Nat)
    (h : l.get? n = none) : l[n]? = none := by
  rw [← List.get?_eq_getElem?]
  exact h

/-- C1 counterexample: on a voteable Open proposal satisfying I3 (tallies
5/0/0, total 10), `update_total_voting_power(id, 3)` returns Ok yet the
stored proposal then violates I3 (5 > 3): the function never checks the
tally sum against the new total. -/
theorem c1_counterexample_total_update :
    I3 { baseProposal with votes_yes := 5 } ∧
    updateTotalVotingPower
        (mkStore { baseProposal with votes_yes := 5 } baseConfig) 0 true 0 3 =
      .res (.ok ())
        (mkStore { baseProposal with votes_yes := 5, total_voting_power := 3 }
          baseConfig) ∧
    ¬ I3 { baseProposal with votes_yes := 5, total_voting_power := 3 } := by
  refine ⟨by decide, by decide, by decide⟩

/-- C1 amended: `update_vote_result` preserves I3 on every Ok (its guard
even enforces a strict sum bound), while the two total-updating calls only
guarantee nonnegative tallies and a nonnegative total on Ok — the bound
`yes+no+abstain ≤ total_voting_power` is not enforced by them. -/
theorem c1_amended_tally_guarantees (st : GovStore) (now : TimeNs)
    (id : Index) (dy dn da total : VotingPower) (st' : GovStore) :
    (updateVoteResult st now true id dy dn da = .res (.ok ()) st' →
      ∀ q, st'.proposals.get? id = some q → I3 q) ∧
    (updateVoteResultAndTotalVotingPower st now true id dy dn da total =
        .res (.ok ()) st' →
      ∀ q, st'.proposals.get? id = some q →
        0 ≤ q.votes_yes ∧ 0 ≤ q.votes_no ∧ 0 ≤ q.votes_abstain ∧
          0 ≤ q.total_voting_power) ∧
    (updateTotalVotingPower st now true id total = .res (.ok ()) st' →
      ∀ p, st.proposals.get? id = some p →
        0 ≤ p.votes_yes → 0 ≤ p.votes_no → 0 ≤ p.votes_abstain →
      ∀ q, st'.proposals.get? id = some q →
        0 ≤ q.votes_yes ∧ 0 ≤ q.votes_no ∧ 0 ≤ q.votes_abstain ∧
          0 ≤ q.total_voting_power) := by
  refine ⟨?_, ?_, ?_⟩
  · intro h q hq
    unfold updateVoteResult at h
    split at h
    · exact absurd h (by simp)
    · split at h
      · exact absurd h (by simp)
      · rename_i p hp
        split at h
        · exact absurd h (by simp)
        · unfold updVoteGuard at h
          split at h
          · exact absurd h (by simp)
          · rename_i hguard
            obtain ⟨q', hst', hy, hn, ha, ht⟩ :=
              finalizeAndStore_ok _ _ _ _ _ h
            subst hst'
            rw [setProposal_get st id q' p hp] at hq
            obtain rfl := Option.some.inj hq
            push_neg at hguard
            obtain ⟨g1, g2, g3, g4⟩ := hguard
            simp at hy hn ha ht g1 g2 g3 g4
            unfold I3
            refine ⟨by linarith, by linarith, by linarith, by linarith⟩
  · intro h q hq
    unfold updateVoteResultAndTotalVotingPower at h
    split at h
    · exact absurd h (by simp)
    · split at h
      · exact absurd h (by simp)
      · rename_i p hp
        split at h
        · exact absurd h (by simp)
        · split at h
          · exact absurd h (by simp)
          · rename_i htot
            unfold updVoteGuardNoSum at h
            split at h
            · exact absurd h (by simp)
            · rename_i hguard
              obtain ⟨q', hst', hy, hn, ha, ht⟩ :=
                finalizeAndStore_ok _ _ _ _ _ h
              subst hst'
              rw [setProposal_get st id q' p hp] at hq
              obtain rfl := Option.some.inj hq
              push_neg at hguard htot
              obtain ⟨g1, g2, g3⟩ := hguard
              simp at hy hn ha ht g1 g2 g3
              refine ⟨by linarith, by linarith, by linarith, by linarith⟩
  · intro h p hp hy0 hn0 ha0 q hq
    unfold updateTotalVotingPower at h
    split at h
    · exact absurd h (by simp)
    · split at h
      · exact absurd h (by simp)
      · rename_i p' hp'
        rw [hp] at hp'
        obtain rfl := Option.some.inj hp'
        split at h
        · exact absurd h (by simp)
        · split at h
          · exact absurd h (by simp)
          · rename_i htot
            obtain ⟨q', hst', hy, hn, ha, ht⟩ :=
              finalizeAndStore_ok _ _ _ _ _ h
            subst hst'
            rw [setProposal_get st id q' p hp] at hq
            obtain rfl := Option.some.inj hq
            push_neg at htot
            simp at hy hn ha ht
            refine ⟨by linarith, by linarith, by linarith, by linarith⟩

/-- C1 amended witness: a concrete Ok run of `update_vote_result` whose
stored result satisfies I3. -/
theorem c1_amended_witness :
    I3 { baseProposal with votes_yes := 1 } := by
  have h := (c1_amended_tally_guarantees
    (mkStore baseProposal baseConfig) 0 0 1 0 0 0
    (mkStore { baseProposal with votes_yes := 1 } baseConfig)).1
  exact h (by decide) { baseProposal with votes_yes := 1 } (by decide)

/-- C2 counterexample: with total 10 and all tallies 0, the increments
(5, 5, 0) make the sum exactly equal to the total; the claim says this
call succeeds, but `update_vote_result` rejects `sum ≥ total` and returns
ArithmeticError. -/
theorem c2_counterexample_equality_rejected :
    updateVoteResult (mkStore baseProposal baseConfig) 0 true 0 5 5 0 =
      .res (.error .ArithmeticError) (mkStore baseProposal baseConfig) ∧
    ¬ ((5 : Int) + 5 + 0 > baseProposal.total_voting_power) ∧
    ¬ ((5 : Int) < 0 ∨ (5 : Int) < 0 ∨ (0 : Int) < 0) := by
  refine ⟨by decide, by decide, by decide⟩

/-- C2 amended: on a voteable proposal, `update_vote_result` returns
ArithmeticError exactly when some incremented tally is negative or the
incremented sum is greater than or equal to the total (equality is also
rejected), and every ArithmeticError leaves the store unchanged. -/
theorem c2_amended_arith_guard (st : GovStore) (now : TimeNs) (id : Index)
    (dy dn da : VotingPower) (p : Proposal)
    (hp : st.proposals.get? id = some p)
    (hv : p.is_voteable now = true) :
    ((updateVoteResult st now true id dy dn da =
        .res (.error .ArithmeticError) st) ↔
      (p.votes_yes + dy < 0 ∨ p.votes_no + dn < 0 ∨ p.votes_abstain + da < 0 ∨
        p.total_voting_power ≤
          p.votes_yes + dy + (p.votes_no + dn) + (p.votes_abstain + da))) ∧
    (∀ st'', updateVoteResult st now true id dy dn da =
        .res (.error .ArithmeticError) st'' → st'' = st) := by
  have hbody : updateVoteResult st now true id dy dn da =
      updVoteGuard st now id
        { p with
          votes_yes := p.votes_yes + dy
          votes_no := p.votes_no + dn
          votes_abstain := p.votes_abstain + da } := by
    unfold updateVoteResult
    rw [hp]
    simp [hv]
  rw [hbody]
  unfold updVoteGuard
  constructor
  · by_cases hg : p.votes_yes + dy < 0 ∨ p.votes_no + dn < 0 ∨
        p.votes_abstain + da < 0 ∨
        p.total_voting_power ≤
          p.votes_yes + dy + (p.votes_no + dn) + (p.votes_abstain + da)
    · rw [if_pos hg]
      simp [hg]
    · rw [if_neg hg]
      constructor
      · intro hc
        cases hres : finalizeAndStore st now id
            { p with
              votes_yes := p.votes_yes + dy
              votes_no := p.votes_no + dn
              votes_abstain := p.votes_abstain + da } with
        | trap m => rw [hres] at hc; exact absurd hc (by simp)
        | res r s2 =>
          rw [hres] at hc
          cases r with
          | ok u => exact absurd hc (by simp)
          | error e =>
            obtain ⟨he, -⟩ := finalizeAndStore_error _ _ _ _ _ _ hres
            subst he
            simp at hc
      · intro hc
        exact absurd hc hg
  · intro st'' hc
    split at hc
    · exact (OpResult.res.inj hc).2.symm
    · obtain ⟨-, h2⟩ := finalizeAndStore_error _ _ _ _ _ _ hc
      exact h2

/-- C2 amended witness: a concrete negative increment is rejected with
ArithmeticError and the store is unchanged. -/
theorem c2_amended_witness :
    updateVoteResult (mkStore baseProposal baseConfig) 0 true 0 (-1) 0 0 =
      .res (.error .ArithmeticError) (mkStore baseProposal baseConfig) := by
  have h := (c2_amended_arith_guard (mkStore baseProposal baseConfig) 0 0
    (-1) 0 0 baseProposal (by decide) (by decide)).1
  exact h.mpr (by decide)

/-- A freshly submitted proposal: no voting fields set. -/
def submittedProposal : Proposal :=
  { baseProposal with
    state := .Submitted
    validated := none
    voting_end_time := none
    passing_threshold := none }

/-- Fixture: `baseConfig` with the `voting_may_end_early` flag set (the shipped
default configuration sets it). -/
def earlyConfig : Config := { baseConfig with voting_may_end_early := true }

/-- A message with no pre- or post-validate target. -/
def plainMessage : CanisterMessage :=
  { canister_id := 1
    method := "m"
    message := []
    payment := 0
    pre_validate := none
    post_validate := none }

/-- A dependency-free payload carrying the single plain message. -/
def c3Payload : ProposalPayload :=
  { depends_on := [], messages := [plainMessage] }

/-- An Accepted proposal with both schedules absolute and an open
execution window around time 1. -/
def acceptedProposal : Proposal :=
  { baseProposal with state := .Accepted, activates := .At 0, expires := .At 1000 }

/-- Store holding `acceptedProposal` (id 0) and `c3Payload` (payload 0). -/
def c3Store : GovStore :=
  { config := baseConfig
    proposals := [acceptedProposal]
    metadataLog := []
    payloadLog := [c3Payload]
    execResults := []
    timerTasks := [] }

/-- An environment where every remote call succeeds and every validation
returns true. -/
def okEnv : MsgEnv := { pre := .ok true, exec := .ok [], post := .ok true }

/-- The store `execute` actually produces on `c3Store`: the proposal ends
in `Failed(step 0, NotStarted)` even though the only message's remote
call succeeded. -/
def c3StoreAfter : GovStore :=
  { config := baseConfig
    proposals := [{ acceptedProposal with state := .Failed ⟨0, .NotStarted⟩ }]
    metadataLog := []
    payloadLog := [c3Payload]
    execResults := [(0, [{ result := .ok [] }])]
    timerTasks := [] }

/-- C3: `execute_message` never issues the `NotStarted → PreValidating`
transition, yet `ExecutionStep::new` starts at `NotStarted`, whose only
permitted successor is `PreValidating`.  Hence the first sub-state
transition always fails and an Accepted proposal whose single message's
remote call succeeds (no pre/post targets) ends in
`Failed(step 0, NotStarted)` instead of `Succeeded`. -/
theorem c3_code_bug_execute_never_succeeds :
    executeOp [okEnv] c3Store 1 true 0 = .res (.ok ()) c3StoreAfter ∧
    c3StoreAfter.proposals.get? 0 =
      some { acceptedProposal with state := .Failed ⟨0, .NotStarted⟩ } ∧
    ({ acceptedProposal with state := .Failed ⟨0, .NotStarted⟩ } :
        Proposal).state ≠ .Succeeded ∧
    allowedStepTransition .NotStarted .PostValidating = false ∧
    allowedStepTransition .NotStarted .Executing = false := by
  refine ⟨by decide, by decide, by decide, by decide, by decide⟩

/-- C5 counterexample: the boundary `voting_end_time = now +
min_voting_period` is rejected with InputError — the code requires the
strict inequality `voting_end_time > now + min_voting_period`. -/
theorem c5_counterexample_boundary_rejected :
    validateOp (mkStore submittedProposal baseConfig) 0 true 0 (some 100)
        (some defaultPassingThreshold) true =
      .res (.error .InputError) (mkStore submittedProposal baseConfig) ∧
    (100 : Nat) = 0 + baseConfig.min_voting_period ∧
    thOkCheck (mkStore submittedProposal baseConfig)
      (some defaultPassingThreshold) = true := by
  refine ⟨by decide, by decide, by decide⟩

/-- The input guard of `validate` fires: InputError, store unchanged. -/
theorem validateOp_inputError (st : GovStore) (now : TimeNs) (id : Index)
    (vet : Option TimeNs) (pth : Option ProposalPassingThreshold)
    (hg : (!thOkCheck st pth || !vetOkCheck st now vet) = true) :
    validateOp st now true id vet pth true =
      .res (.error .InputError) st := by
  simp [validateOp, hg]

/-- When both input checks pass, `validate(…, validated=true)` never
returns InputError. -/
theorem validateOp_guard_pass_ne_input (st : GovStore) (now : TimeNs)
    (id : Index) (vet : Option TimeNs)
    (pth : Option ProposalPassingThreshold)
    (h1 : thOkCheck st pth = true) (h2 : vetOkCheck st now vet = true) :
    validateOp st now true id vet pth true ≠
      .res (.error .InputError) st := by
  intro hc
  simp only [validateOp, h1, h2, Bool.not_true, Bool.or_self,
    Bool.and_false, Bool.false_eq_true, if_false] at hc
  cases hp : st.proposals.get? id with
  | none => simp [hp, lookupElemNone _ _ hp] at hc
  | some p =>
    by_cases hs : p.state = ProposalState.Submitted
    · cases hstt : p.state_transition ProposalState.Open with
      | error e =>
        have hok := (state_transition_ok_iff p .Open
          (p.state, { p with state := .Open })).mpr ⟨by rw [hs]; rfl, rfl⟩
        rw [hok] at hstt
        exact absurd hstt (by simp)
      | ok r =>
        obtain ⟨s1, p1⟩ := r
        cases hhook : st.config.vote_manager_hook.isSome <;>
          simp [hp, lookupElem _ _ _ hp, hs, hstt, hhook] at hc
    · simp [hp, lookupElem _ _ _ hp, hs] at hc

/-- C5 amended: `validate(id, …, validated=true)` returns InputError
exactly when the threshold is absent/invalid/below the minimum or the
voting end is absent or not strictly later than `now + min_voting_period`;
in particular the boundary value is rejected. -/
theorem c5_amended_input_guard (st : GovStore) (now : TimeNs) (id : Index)
    (vet : Option TimeNs) (pth : Option ProposalPassingThreshold) :
    ((validateOp st now true id vet pth true = .res (.error .InputError) st) ↔
      ¬(thOkCheck st pth = true ∧ vetOkCheck st now vet = true)) ∧
    (vet = some (now + st.config.min_voting_period) →
      validateOp st now true id vet pth true =
        .res (.error .InputError) st) := by
  constructor
  · constructor
    · intro hc hcontra
      exact absurd hc (validateOp_guard_pass_ne_input st now id vet pth
        hcontra.1 hcontra.2)
    · intro hng
      apply validateOp_inputError
      rcases not_and_or.mp hng with h | h <;>
        simp [Bool.not_eq_true] at h <;> simp [h]
  · intro hb
    apply validateOp_inputError
    have hv : vetOkCheck st now vet = false := by
      rw [hb]
      simp [vetOkCheck]
    simp [hv]

/-- C5 amended witness: a strictly-later voting end with a valid threshold
passes the input guard (the call does not return InputError). -/
theorem c5_amended_witness :
    ¬ (validateOp (mkStore submittedProposal baseConfig) 0 true 0 (some 101)
        (some defaultPassingThreshold) true =
      .res (.error .InputError) (mkStore submittedProposal baseConfig)) := by
  have h := (c5_amended_input_guard (mkStore submittedProposal baseConfig)
    0 0 (some 101) (some defaultPassingThreshold)).1
  intro hc
  exact absurd ⟨by decide, by decide⟩ (h.mp hc)

/-- C10 counterexample: under the shipped default configuration
(`voting_may_end_early = true`), `finalize_vote_result` on a Submitted,
never-validated proposal panics on `passing_threshold.unwrap()` inside
`try_finalize_vote_result` — the `voting_end_time.unwrap()` in
`finalize_vote_result` is short-circuited and never reached. -/
theorem c10_counterexample_trap_site :
    finalizeVoteResult (mkStore submittedProposal earlyConfig) 0 true 0 =
      .trap "passing_threshold" ∧
    "passing_threshold" ≠ "voting_end_time" := by
  refine ⟨by decide, by decide⟩

/-- C10 amended: on a proposal with both voting fields unset (one that
was never validated), `finalize_vote_result` always panics instead of
returning a typed error — on the `voting_end_time.unwrap()` when
`voting_may_end_early` is false, and on the `passing_threshold.unwrap()`
inside `try_finalize_vote_result` when the flag is true; there is no
`is_voteable` or state guard on the way. -/
theorem c10_amended_finalize_traps (st : GovStore) (now : TimeNs)
    (id : Index) (p : Proposal)
    (hp : st.proposals.get? id = some p)
    (hvet : p.voting_end_time = none)
    (hth : p.passing_threshold = none) :
    (st.config.voting_may_end_early = false →
      finalizeVoteResult st now true id = .trap "voting_end_time") ∧
    (st.config.voting_may_end_early = true →
      finalizeVoteResult st now true id = .trap "passing_threshold") := by
  constructor
  · intro hflag
    simp [finalizeVoteResult, finalizeAndStore, hp, lookupElem _ _ _ hp,
      hflag, hvet]
  · intro hflag
    simp [finalizeVoteResult, finalizeAndStore, runFinalizeStore, hp,
      lookupElem _ _ _ hp, hflag, Proposal.try_finalize_vote_result,
      Proposal.is_expired, hvet, hth]

/-- C10 amended witness: with the early-end flag cleared the same call
traps on the `voting_end_time` unwrap. -/
theorem c10_amended_witness :
    finalizeVoteResult (mkStore submittedProposal baseConfig) 0 true 0 =
      .trap "voting_end_time" :=
  (c10_amended_finalize_traps (mkStore submittedProposal baseConfig) 0 0
    submittedProposal rfl rfl rfl).1 rfl

/-- C4 witness: with tallies 6/0/0 of total 10 and the default 20%
threshold, the early branch accepts and freezes both schedules. -/
theorem c4_witness :
    ({ baseProposal with votes_yes := 6 } : Proposal).try_finalize_vote_result
        0 =
      .ok (true,
        ((({ baseProposal with votes_yes := 6, state := .Accepted } :
            Proposal).finalize_activation 0).finalize_expiration 0)) := by
  have h := (c4_try_finalize_cases { baseProposal with votes_yes := 6 } 0
    defaultPassingThreshold 1000 rfl rfl rfl).1 (by decide)
  exact h.1 (by decide)

/-- The dependency resolver on a single predecessor, classified by the
predecessor's state. -/
theorem validateDep_single (st : GovStore) (a : Index) (pA : Proposal)
    (ha : st.proposals.get? a = some pA) :
    validateExecutionDependency st [a] =
      (if isSuccessTerminal pA.state = true then Except.ok ()
       else if isFailureTerminal pA.state = true then
         Except.error ReturnError.DependentProposalNotSucceeded
       else Except.error ReturnError.DependentProposalNotReady) := by
  cases hs : pA.state <;>
    simp [validateExecutionDependency, ha, lookupElem _ _ _ ha, hs,
      isSuccessTerminal, isFailureTerminal]

/-- An executable proposal is in state Accepted. -/
theorem is_executable_state (p : Proposal) (now : TimeNs)
    (h : p.is_executable now = true) : p.state = .Accepted := by
  simp [Proposal.is_executable] at h
  exact h.1.1.1

/-- Failure terminals are not success terminals. -/
theorem failure_not_success (s : ProposalState)
    (h : isFailureTerminal s = true) : isSuccessTerminal s = false := by
  cases s <;> simp_all [isFailureTerminal, isSuccessTerminal]

/-- Non-terminal states are neither success nor failure terminals. -/
theorem nonterminal_not_others (s : ProposalState)
    (h : isNonTerminal s = true) :
    isSuccessTerminal s = false ∧ isFailureTerminal s = false := by
  cases s <;> simp_all [isNonTerminal, isSuccessTerminal, isFailureTerminal]

/-- A failing dependency check propagates out of the execution body. -/
theorem executeAfterFinalize_dep_error (env : List MsgEnv) (st : GovStore)
    (now : TimeNs) (id : Index) (p : Proposal) (payload : ProposalPayload)
    (e : ReturnError)
    (hexec : p.is_executable now = true)
    (hpl : st.payloadLog.get? p.payload_id = some payload)
    (hdep : validateExecutionDependency st payload.depends_on = .error e) :
    executeAfterFinalize env st now id p = .res (.error e) st := by
  simp [executeAfterFinalize, hexec, hpl, lookupElem _ _ _ hpl, hdep]

/-- Lemma: `execute` on a non-Open proposal goes straight to the execution body. -/
theorem executeOp_notOpen (env : List MsgEnv) (st : GovStore) (now : TimeNs)
    (id : Index) (p : Proposal)
    (hb : st.proposals.get? id = some p) (hstate : p.state ≠ .Open) :
    executeOp env st now true id = executeAfterFinalize env st now id p := by
  simp [executeOp, hb, lookupElem _ _ _ hb, hstate]

/-- A failing dependency check propagates out of `force_execute`. -/
theorem forceExecuteOp_dep_error (env : List MsgEnv) (st : GovStore)
    (now : TimeNs) (id : Index) (p : Proposal) (payload : ProposalPayload)
    (e : ReturnError)
    (hb : st.proposals.get? id = some p)
    (hexec : p.is_force_executable now = true)
    (hpl : st.payloadLog.get? p.payload_id = some payload)
    (hdep : validateExecutionDependency st payload.depends_on = .error e) :
    forceExecuteOp env st now true id = .res (.error e) st := by
  simp [forceExecuteOp, hb, lookupElem _ _ _ hb, hexec, hpl,
    lookupElem _ _ _ hpl, hdep]

/-- C6: with `depends_on = [A]`, `execute(B)` (on an executable B) returns
DependentProposalNotSucceeded when A is in a failure terminal and
DependentProposalNotReady when A is non-terminal; the dependency check
passes exactly when A is Succeeded or ForceExecutionSucceeded; the same
gating applies to `force_execute`. -/
theorem c6_dependency_gating :
    (∀ (env : List MsgEnv) (st : GovStore) (now : TimeNs) (a b : Index)
        (pB : Proposal) (payload : ProposalPayload) (pA : Proposal),
      st.proposals.get? b = some pB →
      pB.is_executable now = true →
      st.payloadLog.get? pB.payload_id = some payload →
      payload.depends_on = [a] →
      st.proposals.get? a = some pA →
      ((isFailureTerminal pA.state = true →
        executeOp env st now true b =
          .res (.error .DependentProposalNotSucceeded) st) ∧
       (isNonTerminal pA.state = true →
        executeOp env st now true b =
          .res (.error .DependentProposalNotReady) st) ∧
       (validateExecutionDependency st [a] = .ok () ↔
         isSuccessTerminal pA.state = true))) ∧
    (∀ (env : List MsgEnv) (st : GovStore) (now : TimeNs) (a b : Index)
        (pB : Proposal) (payload : ProposalPayload) (pA : Proposal),
      st.proposals.get? b = some pB →
      pB.is_force_executable now = true →
      st.payloadLog.get? pB.payload_id = some payload →
      payload.depends_on = [a] →
      st.proposals.get? a = some pA →
      ((isFailureTerminal pA.state = true →
        forceExecuteOp env st now true b =
          .res (.error .DependentProposalNotSucceeded) st) ∧
       (isNonTerminal pA.state = true →
        forceExecuteOp env st now true b =
          .res (.error .DependentProposalNotReady) st))) := by
  constructor
  · intro env st now a b pB payload pA hb hexec hpl hdeps ha
    have hstB := is_executable_state pB now hexec
    have hne : pB.state ≠ .Open := by rw [hstB]; simp
    have hdep1 : validateExecutionDependency st payload.depends_on =
        (if isSuccessTerminal pA.state = true then Except.ok ()
         else if isFailureTerminal pA.state = true then
           Except.error ReturnError.DependentProposalNotSucceeded
         else Except.error ReturnError.DependentProposalNotReady) := by
      rw [hdeps]
      exact validateDep_single st a pA ha
    refine ⟨?_, ?_, ?_⟩
    · intro hfail
      rw [executeOp_notOpen env st now b pB hb hne]
      apply executeAfterFinalize_dep_error env st now b pB payload _ hexec hpl
      rw [hdep1, if_neg (by simp [failure_not_success pA.state hfail]),
        if_pos hfail]
    · intro hready
      obtain ⟨hns, hnf⟩ := nonterminal_not_others pA.state hready
      rw [executeOp_notOpen env st now b pB hb hne]
      apply executeAfterFinalize_dep_error env st now b pB payload _ hexec hpl
      rw [hdep1, if_neg (by simp [hns]), if_neg (by simp [hnf])]
    · rw [validateDep_single st a pA ha]
      by_cases hsucc : isSuccessTerminal pA.state = true
      · simp [hsucc]
      · by_cases hf : isFailureTerminal pA.state = true <;> simp [hsucc, hf]
  · intro env st now a b pB payload pA hb hexec hpl hdeps ha
    have hdep1 : validateExecutionDependency st payload.depends_on =
        (if isSuccessTerminal pA.state = true then Except.ok ()
         else if isFailureTerminal pA.state = true then
           Except.error ReturnError.DependentProposalNotSucceeded
         else Except.error ReturnError.DependentProposalNotReady) := by
      rw [hdeps]
      exact validateDep_single st a pA ha
    constructor
    · intro hfail
      apply forceExecuteOp_dep_error env st now b pB payload _ hb hexec hpl
      rw [hdep1, if_neg (by simp [failure_not_success pA.state hfail]),
        if_pos hfail]
    · intro hready
      obtain ⟨hns, hnf⟩ := nonterminal_not_others pA.state hready
      apply forceExecuteOp_dep_error env st now b pB payload _ hb hexec hpl
      rw [hdep1, if_neg (by simp [hns]), if_neg (by simp [hnf])]

/-- A dependency-bearing payload pointing at proposal 0. -/
def depPayload0 : ProposalPayload := { depends_on := [0], messages := [] }

/-- Store with a Revoked dependency (id 0) and an executable B (id 1)
whose payload is `depPayload0`. -/
def c6Store : GovStore :=
  { config := baseConfig
    proposals := [{ baseProposal with state := .Revoked }, acceptedProposal]
    metadataLog := []
    payloadLog := [depPayload0]
    execResults := []
    timerTasks := [] }

/-- C6 witness: executing B while its dependency is Revoked yields
DependentProposalNotSucceeded. -/
theorem c6_witness :
    executeOp [] c6Store 1 true 1 =
      .res (.error .DependentProposalNotSucceeded) c6Store := by
  have h := (c6_dependency_gating.1 [] c6Store 1 0 1 acceptedProposal
    depPayload0 { baseProposal with state := .Revoked }
    (by decide) (by decide) (by decide) (by decide) (by decide)).1
  exact h (by decide)

/-- Valid metadata for submit runs. -/
def goodMetadata : ProposalMetadata :=
  { name := "n", description := "d", memo := [] }

/-- A payload with no dependencies and no messages. -/
def emptyPayload : ProposalPayload := { depends_on := [], messages := [] }

/-- A payload whose sole dependency index (5) is out of range for a
fresh store. -/
def depPayload5 : ProposalPayload := { depends_on := [5], messages := [] }

/-- A store with nothing submitted yet. -/
def emptyStore : GovStore :=
  { config := baseConfig
    proposals := []
    metadataLog := []
    payloadLog := []
    execResults := []
    timerTasks := [] }

/-- C7 counterexample: submit with an empty metadata name traps on the
`assert!` instead of returning an error value of kind Input. -/
theorem c7_counterexample_submit_traps :
    submitOp emptyStore 0 true 9 { name := "", description := "d", memo := [] }
        emptyPayload (.At 0) (.At 100) false = .trap "assertion failed" ∧
    submitOp emptyStore 0 true 9
        { name := "", description := "d", memo := [] }
        emptyPayload (.At 0) (.At 100) false ≠
      .res (.error .InputError) emptyStore := by
  refine ⟨by decide, by decide⟩

/-- C7 amended: invalid metadata/payload/expiry, or a dependency index not
strictly below the new id, make `submit` trap (the call aborts and the
canister state rolls back, so the store is unchanged); it never returns an
Input error value, and on valid input it returns the fresh id. -/
theorem c7_amended_submit_asserts (st : GovStore) (now : TimeNs)
    (caller : Principal) (m : ProposalMetadata) (pl : ProposalPayload)
    (act exp : Schedule) (ae : Bool) :
    (¬(m.is_valid = true ∧ pl.is_valid = true ∧
        exp.is_in_future now = true) →
      submitOp st now true caller m pl act exp ae =
        .trap "assertion failed") ∧
    (m.is_valid = true → pl.is_valid = true → exp.is_in_future now = true →
      optLt pl.max_dependency_index (some st.proposals.length) = false →
      submitOp st now true caller m pl act exp ae =
        .trap "assertion failed") ∧
    (m.is_valid = true → pl.is_valid = true → exp.is_in_future now = true →
      optLt pl.max_dependency_index (some st.proposals.length) = true →
      ∃ st', submitOp st now true caller m pl act exp ae =
        .res (.ok st.proposals.length) st') := by
  refine ⟨?_, ?_, ?_⟩
  · intro hbad
    have hb : (m.is_valid && pl.is_valid && exp.is_in_future now) = false := by
      cases hm : m.is_valid <;> cases hpl : pl.is_valid <;>
        cases he : exp.is_in_future now <;> simp_all
    simp [submitOp, hb]
  · intro h1 h2 h3 hdep
    simp [submitOp, h1, h2, h3, hdep]
  · intro h1 h2 h3 hdep
    simp only [submitOp, h1, h2, h3, hdep, Bool.and_self, Bool.not_true,
      Bool.false_eq_true, if_false, Bool.not_false]
    split
    · exact ⟨_, rfl⟩
    · exact ⟨_, rfl⟩

/-- C7 amended witness: an out-of-range dependency index traps. -/
theorem c7_amended_witness :
    submitOp emptyStore 0 true 9 goodMetadata depPayload5 (.At 0) (.At 100)
        false = .trap "assertion failed" :=
  (c7_amended_submit_asserts emptyStore 0 9 goodMetadata depPayload5
    (.At 0) (.At 100) false).2.1 (by decide) (by decide) (by decide)
    (by decide)

/-- The proposal record `validate` stores on success. -/
def postValidateProposal (p : Proposal) (vet : Option TimeNs)
    (pth : Option ProposalPassingThreshold) (validated : Bool) : Proposal :=
  { p with
    state := if validated then .Open else .ValidationFailed
    validated := some validated
    voting_end_time := vet
    passing_threshold := pth }

/-- The store `validate` produces on success (with the optional
vote-manager hook push). -/
def postValidateStore (st : GovStore) (id : Index) (vet : Option TimeNs)
    (pth : Option ProposalPassingThreshold) (validated : Bool)
    (p : Proposal) : GovStore :=
  if st.config.vote_manager_hook.isSome then
    GovStore.pushTimerTask
      (st.setProposal id (postValidateProposal p vet pth validated)) id
  else st.setProposal id (postValidateProposal p vet pth validated)

/-- Lemma: `validate` on a Submitted proposal succeeds (input guard permitting)
and stores the transition target together with the decision fields. -/
theorem validateOp_submitted (st : GovStore) (now : TimeNs) (id : Index)
    (vet : Option TimeNs) (pth : Option ProposalPassingThreshold)
    (validated : Bool) (p : Proposal)
    (hp : st.proposals.get? id = some p)
    (hs : p.state = .Submitted)
    (hg : validated = true →
      thOkCheck st pth = true ∧ vetOkCheck st now vet = true) :
    validateOp st now true id vet pth validated =
      .res (.ok ()) (postValidateStore st id vet pth validated p) := by
  cases validated with
  | false =>
    cases hh : st.config.vote_manager_hook.isSome <;>
      simp [validateOp, hp, lookupElem _ _ _ hp, hs,
        Proposal.state_transition, allowedTransition, postValidateStore,
        postValidateProposal, hh]
  | true =>
    obtain ⟨hth, hvet⟩ := hg rfl
    cases hh : st.config.vote_manager_hook.isSome <;>
      simp [validateOp, hth, hvet, hp, lookupElem _ _ _ hp, hs,
        Proposal.state_transition, allowedTransition, postValidateStore,
        postValidateProposal, hh]

/-- Lemma: `validate` on a non-Submitted proposal fails with
IncorrectProposalState (input guard permitting), leaving the store
unchanged. -/
theorem validateOp_not_submitted (st : GovStore) (now : TimeNs) (id : Index)
    (vet : Option TimeNs) (pth : Option ProposalPassingThreshold)
    (validated : Bool) (p : Proposal)
    (hp : st.proposals.get? id = some p)
    (hs : p.state ≠ .Submitted)
    (hg : validated = true →
      thOkCheck st pth = true ∧ vetOkCheck st now vet = true) :
    validateOp st now true id vet pth validated =
      .res (.error .IncorrectProposalState) st := by
  cases validated with
  | false => simp [validateOp, hp, lookupElem _ _ _ hp, hs]
  | true =>
    obtain ⟨hth, hvet⟩ := hg rfl
    simp [validateOp, hth, hvet, hp, lookupElem _ _ _ hp, hs]

/-- C8: `validate` moves Submitted→Open (validated=true, input checks
passing) or Submitted→ValidationFailed (validated=false), storing the
decision; on any other state it returns IncorrectProposalState leaving the
store unchanged; and once a proposal is ValidationFailed, every subsequent
validate call on it fails. -/
theorem c8_validate_state_machine :
    (∀ (st : GovStore) (now : TimeNs) (id : Index) (vet : Option TimeNs)
        (pth : Option ProposalPassingThreshold) (p : Proposal),
      st.proposals.get? id = some p → p.state = .Submitted →
      thOkCheck st pth = true → vetOkCheck st now vet = true →
      validateOp st now true id vet pth true =
        .res (.ok ()) (postValidateStore st id vet pth true p)) ∧
    (∀ (st : GovStore) (now : TimeNs) (id : Index) (vet : Option TimeNs)
        (pth : Option ProposalPassingThreshold) (p : Proposal),
      st.proposals.get? id = some p → p.state = .Submitted →
      validateOp st now true id vet pth false =
        .res (.ok ()) (postValidateStore st id vet pth false p)) ∧
    (∀ (st : GovStore) (now : TimeNs) (id : Index) (vet : Option TimeNs)
        (pth : Option ProposalPassingThreshold) (validated : Bool)
        (p : Proposal),
      st.proposals.get? id = some p → p.state ≠ .Submitted →
      (validated = true →
        thOkCheck st pth = true ∧ vetOkCheck st now vet = true) →
      validateOp st now true id vet pth validated =
        .res (.error .IncorrectProposalState) st) ∧
    (∀ (st : GovStore) (id : Index) (p : Proposal),
      st.proposals.get? id = some p → p.state = .ValidationFailed →
      ∀ (now' : TimeNs) (vet' : Option TimeNs)
        (pth' : Option ProposalPassingThreshold) (vb : Bool)
        (st' : GovStore),
        validateOp st now' true id vet' pth' vb ≠ .res (.ok ()) st') := by
  refine ⟨?_, ?_, ?_, ?_⟩
  · intro st now id vet pth p hp hs hth hvet
    exact validateOp_submitted st now id vet pth true p hp hs
      (fun _ => ⟨hth, hvet⟩)
  · intro st now id vet pth p hp hs
    exact validateOp_submitted st now id vet pth false p hp hs
      (fun h => absurd h (by simp))
  · intro st now id vet pth validated p hp hs hg
    exact validateOp_not_submitted st now id vet pth validated p hp hs hg
  · intro st id p hp hvf now' vet' pth' vb st' hc
    have hns : p.state ≠ .Submitted := by rw [hvf]; simp
    cases vb with
    | false =>
      rw [validateOp_not_submitted st now' id vet' pth' false p hp hns
        (fun h => absurd h (by simp))] at hc
      exact absurd hc (by simp)
    | true =>
      by_cases hok : thOkCheck st pth' = true ∧ vetOkCheck st now' vet' = true
      · rw [validateOp_not_submitted st now' id vet' pth' true p hp hns
          (fun _ => hok)] at hc
        exact absurd hc (by simp)
      · have hg : (!thOkCheck st pth' || !vetOkCheck st now' vet') = true := by
          rcases not_and_or.mp hok with h | h <;>
            simp [Bool.not_eq_true] at h <;> simp [h]
        rw [validateOp_inputError st now' id vet' pth' hg] at hc
        exact absurd hc (by simp)

/-- C8 witness: a concrete failed validation stores ValidationFailed. -/
theorem c8_witness :
    validateOp (mkStore submittedProposal baseConfig) 0 true 0 none none
        false =
      .res (.ok ())
        (postValidateStore (mkStore submittedProposal baseConfig) 0 none none
          false submittedProposal) :=
  (c8_validate_state_machine.2.1 (mkStore submittedProposal baseConfig) 0 0
    none none submittedProposal (by decide) (by decide))

end NxGov
